import Mathlib

/-!
Shallow embedding of the AI Room Designer front-end core (retry orchestrator,
TTL cache, sliding-window rate limiter, error classification, and the
`redesignRoom` orchestration service), translated from
`src/utils/apiUtils.ts`, `src/services/geminiServices.tsx` and the
quota-aware OpenRouter variant of the service shipped in the repository.

Conventions of the embedding:
* Timestamps (`Date.now()`) and date strings (`new Date().toISOString()`
  day part) are passed explicitly as `now : Nat` / `today : String`.
* JavaScript exceptions become `Except JSError`; a thrown `APIError`
  instance is the `JSError.api` constructor, a plain `Error` is
  `JSError.generic`, and the `undefined` value thrown by the non-null
  assertion `lastError!` is `JSError.undef`.
* `localStorage` content for the daily-usage key is an `Option DailyUsage`.
* The browser's SHA-256 digest used by the quota-aware
  `generateImageHash` is abstracted as a function parameter
  `hashFn : String → String`; the code-level truncation of its input to the
  first 1000 base64 characters is kept explicit.
* The asynchronous operation handed to `withRetry` is modelled as a
  function from the attempt number to that attempt's outcome; the model
  additionally returns how many times the operation was invoked and the
  list of computed backoff delays, which are the observables the
  specification talks about.
-/

set_option maxHeartbeats 1000000

/-- `leadsWith pat l` decides whether `pat` occurs at the front of `l`. -/
def leadsWith : List Char → List Char → Bool
  | [], _ => true
  | _ :: _, [] => false
  | a :: as, b :: bs => a == b && leadsWith as bs

/-- `occursIn pat l` decides whether `pat` occurs contiguously anywhere in `l`. -/
def occursIn (pat : List Char) : List Char → Bool
  | [] => leadsWith pat []
  | c :: rest => leadsWith pat (c :: rest) || occursIn pat rest

/-- Model of JavaScript `String.prototype.includes`. -/
def strIncludes (s pat : String) : Bool :=
  occursIn pat.data s.data

/-- Model of JavaScript `s.substring(0, n)`. -/
def jsSubstringTo (s : String) (n : Nat) : String :=
  ⟨s.data.take n⟩

/-- The 64-character base64 alphabet. -/
def b64Alphabet : List Char :=
  ['A','B','C','D','E','F','G','H','I','J','K','L','M','N','O','P',
   'Q','R','S','T','U','V','W','X','Y','Z',
   'a','b','c','d','e','f','g','h','i','j','k','l','m','n','o','p',
   'q','r','s','t','u','v','w','x','y','z',
   '0','1','2','3','4','5','6','7','8','9','+','/']

/-- The base64 digit for a 6-bit value. -/
def b64Char (n : Nat) : Char :=
  b64Alphabet.getD n 'A'

/-- Base64-encode a byte list, three bytes to four output characters,
with `=` padding, as `btoa` does. -/
def b64chunks : List Nat → List Char
  | [] => []
  | [a] =>
      [b64Char (a / 4), b64Char (a % 4 * 16), '=', '=']
  | [a, b] =>
      [b64Char (a / 4), b64Char (a % 4 * 16 + b / 16), b64Char (b % 16 * 4), '=']
  | a :: b :: c :: rest =>
      b64Char (a / 4) :: b64Char (a % 4 * 16 + b / 16) ::
      b64Char (b % 16 * 4 + c / 64) :: b64Char (c % 64) :: b64chunks rest

/-- Model of the browser's `btoa` on latin-1 text: the code units of the
string are base64-encoded. -/
def btoa (s : String) : String :=
  ⟨b64chunks (s.data.map Char.toNat)⟩

/-- `APIError` from `src/utils/apiUtils.ts`: message, optional HTTP status,
optional machine-readable code, and a retryability flag. -/
structure APIError where
  message : String
  status : Option Nat
  code : Option String
  retryable : Bool
  deriving DecidableEq, Repr

/-- A thrown JavaScript value as seen by the retry logic: a classified
`APIError`, a plain `Error` carrying only a message, or the `undefined`
value produced by the non-null assertion on an uninitialized `lastError`. -/
inductive JSError where
  | api (e : APIError)
  | generic (message : String)
  | undef
  deriving DecidableEq, Repr

instance {ε α : Type} [DecidableEq ε] [DecidableEq α] : DecidableEq (Except ε α) := fun x y =>
  match x, y with
  | Except.ok a, Except.ok b =>
    if h : a = b then isTrue (by rw [h]) else isFalse (fun hh => by cases hh; exact h rfl)
  | Except.error a, Except.error b =>
    if h : a = b then isTrue (by rw [h]) else isFalse (fun hh => by cases hh; exact h rfl)
  | Except.ok _, Except.error _ => isFalse (fun hh => by cases hh)
  | Except.error _, Except.ok _ => isFalse (fun hh => by cases hh)

/-- `RetryOptions` from `src/utils/apiUtils.ts`. -/
structure RetryOptions where
  maxAttempts : Nat
  baseDelay : Nat
  maxDelay : Nat
  backoffFactor : Nat
  deriving DecidableEq, Repr

/-- `defaultRetryOptions` from `src/utils/apiUtils.ts`. -/
def defaultRetryOptions : RetryOptions :=
  { maxAttempts := 3, baseDelay := 1000, maxDelay := 10000, backoffFactor := 2 }

/-- A `Partial<RetryOptions>` value: each field optionally overridden. -/
structure RetryOverrides where
  maxAttempts : Option Nat := none
  baseDelay : Option Nat := none
  maxDelay : Option Nat := none
  backoffFactor : Option Nat := none
  deriving DecidableEq, Repr

/-- The object-spread merge `{ ...defaultRetryOptions, ...options }`. -/
def mergeRetryOptions (o : RetryOverrides) : RetryOptions :=
  { maxAttempts := o.maxAttempts.getD defaultRetryOptions.maxAttempts,
    baseDelay := o.baseDelay.getD defaultRetryOptions.baseDelay,
    maxDelay := o.maxDelay.getD defaultRetryOptions.maxDelay,
    backoffFactor := o.backoffFactor.getD defaultRetryOptions.backoffFactor }

/-- `calculateDelay` from `src/utils/apiUtils.ts`:
`min(baseDelay * backoffFactor ^ (attempt - 1), maxDelay)`. -/
def calculateDelay (attempt : Nat) (options : RetryOptions) : Nat :=
  min (options.baseDelay * options.backoffFactor ^ (attempt - 1)) options.maxDelay

/-- `isRetryableError` from `src/utils/apiUtils.ts`: an `APIError` is judged
by its `retryable` flag; a plain error by whether its message contains
`"network"` or `"fetch"`. (`undef` is never passed to it by `withRetry`.) -/
def isRetryableError (e : JSError) : Bool :=
  match e with
  | JSError.api a => a.retryable
  | JSError.generic m => strIncludes m "network" || strIncludes m "fetch"
  | JSError.undef => false

/-- The attempt loop of `withRetry`. `attempt` is the 1-based loop counter
and `fuel` the number of remaining loop iterations (`maxAttempts - attempt + 1`);
exhausting the fuel without entering the loop body corresponds to the final
`throw lastError!` on an uninitialized `lastError`. Returns the outcome,
the number of times the operation was invoked, and the backoff delays
computed between attempts. -/
def withRetryGo {α : Type} (op : Nat → Except JSError α) (config : RetryOptions) :
    Nat → Nat → Except JSError α × Nat × List Nat
  | _, 0 => (Except.error JSError.undef, 0, [])
  | attempt, fuel + 1 =>
    match op attempt with
    | Except.ok v => (Except.ok v, 1, [])
    | Except.error e =>
      if isRetryableError e = false ∨ attempt = config.maxAttempts then
        (Except.error e, 1, [])
      else
        let d := calculateDelay attempt config
        let r := withRetryGo op config (attempt + 1) fuel
        (r.1, r.2.1 + 1, d :: r.2.2)

/-- `withRetry`'s loop run with a fully merged configuration. -/
def withRetryRun {α : Type} (op : Nat → Except JSError α) (config : RetryOptions) :
    Except JSError α × Nat × List Nat :=
  withRetryGo op config 1 config.maxAttempts

/-- `withRetry` from `src/utils/apiUtils.ts`: merge the caller's partial
options into the defaults and run the attempt loop. -/
def withRetry {α : Type} (op : Nat → Except JSError α) (options : RetryOverrides) :
    Except JSError α × Nat × List Nat :=
  withRetryRun op (mergeRetryOptions options)

/-- An entry of the in-memory `Cache`: `{ data, timestamp, ttl }`. -/
structure CacheEntry (α : Type) where
  data : α
  timestamp : Nat
  ttl : Nat
  deriving DecidableEq, Repr

/-- The backing `Map` of the cache, as an association list with unique keys
(JavaScript `Map` semantics). -/
def CacheMap (α : Type) : Type :=
  List (String × CacheEntry α)

instance {α : Type} [DecidableEq α] : DecidableEq (CacheMap α) :=
  inferInstanceAs (DecidableEq (List (String × CacheEntry α)))

/-- `Map.get`: first entry whose key matches. -/
def mapGet {α : Type} (c : CacheMap α) (k : String) : Option (CacheEntry α) :=
  match c with
  | [] => none
  | (k', e) :: rest => if k' = k then some e else mapGet rest k

/-- `Map.set`: overwrite the entry for `k` in place, or append a new one. -/
def mapSet {α : Type} (c : CacheMap α) (k : String) (e : CacheEntry α) : CacheMap α :=
  match c with
  | [] => [(k, e)]
  | (k', e') :: rest => if k' = k then (k, e) :: rest else (k', e') :: mapSet rest k e

/-- `Map.delete`: remove the entry for `k` (keys are unique in a `Map`). -/
def mapDelete {α : Type} (c : CacheMap α) (k : String) : CacheMap α :=
  c.filter (fun q => q.1 != k)

/-- `Cache.set` from `src/utils/apiUtils.ts`: store the value with the
current timestamp and the given TTL. -/
def cacheSet {α : Type} (c : CacheMap α) (k : String) (v : α) (ttl : Nat) (now : Nat) :
    CacheMap α :=
  mapSet c k { data := v, timestamp := now, ttl := ttl }

/-- `Cache.get` from `src/utils/apiUtils.ts`: return the stored value when
present and unexpired; when `now - timestamp > ttl`, delete the entry and
return `null`. Also returns the (possibly pruned) map. -/
def cacheGet {α : Type} (c : CacheMap α) (k : String) (now : Nat) :
    Option α × CacheMap α :=
  match mapGet c k with
  | none => (none, c)
  | some e => if now - e.timestamp > e.ttl then (none, mapDelete c k) else (some e.data, c)

/-- `parts.join(':')` for `createCacheKey`. -/
def joinColon : List String → String
  | [] => ""
  | [x] => x
  | x :: xs => x ++ ":" ++ joinColon xs

/-- `createCacheKey` from `src/utils/apiUtils.ts`. -/
def createCacheKey (pre : String) (parts : List String) : String :=
  pre ++ ":" ++ joinColon parts

/-- `RateLimiter.canMakeRequest`: prune timestamps with `now - time >= windowMs`,
then compare the remaining count to `maxRequests`. Returns the answer and the
pruned timestamp list (the pruning mutates `this.requests`). -/
def canMakeRequest (maxRequests windowMs : Nat) (requests : List Nat) (now : Nat) :
    Bool × List Nat :=
  let pruned := requests.filter (fun time => now - time < windowMs)
  (decide (pruned.length < maxRequests), pruned)

/-- `RateLimiter.recordRequest`: append the current time. -/
def recordRequest (requests : List Nat) (now : Nat) : List Nat :=
  requests ++ [now]

/-- `RateLimiter.getWaitTime`: time until the oldest tracked request ages
out of the window, clamped at zero (`Nat` subtraction). -/
def getWaitTime (windowMs : Nat) (requests : List Nat) (now : Nat) : Nat :=
  match requests with
  | [] => 0
  | t :: ts => windowMs - (now - ts.foldl Nat.min t)

/-- The process-wide `rateLimiter` singleton's `maxRequests` (10). -/
def rateLimiterMax : Nat := 10

/-- The process-wide `rateLimiter` singleton's `windowMs` (one minute). -/
def rateLimiterWindow : Nat := 60000

/-- The `APIError` thrown by `checkRateLimit` when the limiter refuses. -/
def rateLimitError (waitTime : Nat) : APIError :=
  { message := s!"Rate limit exceeded. Please wait {(waitTime + 999) / 1000} seconds before trying again.",
    status := some 429, code := some "RATE_LIMIT_EXCEEDED", retryable := true }

/-- `checkRateLimit` from `src/utils/apiUtils.ts`: throw a retryable
`RATE_LIMIT_EXCEEDED` error when the limiter refuses, otherwise record the
request. Returns the updated timestamp list of the singleton limiter. -/
def checkRateLimit (requests : List Nat) (now : Nat) : Except JSError Unit × List Nat :=
  let pr := canMakeRequest rateLimiterMax rateLimiterWindow requests now
  if pr.1 then (Except.ok (), recordRequest pr.2 now)
  else (Except.error (JSError.api (rateLimitError (getWaitTime rateLimiterWindow pr.2 now))), pr.2)

/-- `RedesignOptions` of the orchestration service: each field optionally
supplied by the caller. -/
structure RedesignOverrides where
  useCache : Option Bool := none
  cacheTimeMs : Option Nat := none
  maxRetries : Option Nat := none
  deriving DecidableEq, Repr

/-- A fully merged redesign configuration. -/
structure RedesignConfig where
  useCache : Bool
  cacheTimeMs : Nat
  maxRetries : Nat
  deriving DecidableEq, Repr

/-- `DEFAULT_REDESIGN_OPTIONS` of the quota-aware service:
`useCache: true`, `cacheTimeMs: 86400000` (24h), `maxRetries: 1`. -/
def defaultRedesignOptions : RedesignConfig :=
  { useCache := true, cacheTimeMs := 86400000, maxRetries := 1 }

/-- The object-spread merge `{ ...DEFAULT_REDESIGN_OPTIONS, ...options }`. -/
def mergeRedesignOptions (o : RedesignOverrides) : RedesignConfig :=
  { useCache := o.useCache.getD defaultRedesignOptions.useCache,
    cacheTimeMs := o.cacheTimeMs.getD defaultRedesignOptions.cacheTimeMs,
    maxRetries := o.maxRetries.getD defaultRedesignOptions.maxRetries }

/-- `DAILY_REQUEST_LIMIT` of the quota-aware service. -/
def DAILY_REQUEST_LIMIT : Nat := 5

/-- The `DailyUsage` record persisted under `QUOTA_STORAGE_KEY`. -/
structure DailyUsage where
  date : String
  count : Nat
  deriving DecidableEq, Repr

/-- The mutable state touched by the orchestration service: the stored
daily usage (`localStorage`), the cache singleton's map, and the rate
limiter singleton's timestamps. -/
structure OrchestState where
  usage : Option DailyUsage
  cacheMap : CacheMap String
  requests : List Nat
  deriving DecidableEq

/-- `getDailyUsage`: return the stored usage when it is for today,
otherwise write and return a reset counter for today. -/
def getDailyUsage (today : String) (st : OrchestState) : DailyUsage × OrchestState :=
  match st.usage with
  | some u =>
    if u.date = today then (u, st)
    else (⟨today, 0⟩, { st with usage := some ⟨today, 0⟩ })
  | none => (⟨today, 0⟩, { st with usage := some ⟨today, 0⟩ })

/-- `incrementDailyUsage`: bump today's counter by one. -/
def incrementDailyUsage (today : String) (st : OrchestState) : OrchestState :=
  let g := getDailyUsage today st
  { g.2 with usage := some ⟨g.1.date, g.1.count + 1⟩ }

/-- The non-retryable `DAILY_QUOTA_EXCEEDED` error thrown by `checkDailyQuota`. -/
def dailyQuotaError (limit : Nat) : APIError :=
  { message := s!"Daily limit reached ({limit} requests). This helps preserve your free API quota. Please try again tomorrow or upgrade to a paid plan for unlimited usage.",
    status := some 429, code := some "DAILY_QUOTA_EXCEEDED", retryable := false }

/-- `checkDailyQuota`: throw a non-retryable classified error when today's
counter has reached the daily limit. -/
def checkDailyQuota (limit : Nat) (today : String) (st : OrchestState) :
    Except JSError Unit × OrchestState :=
  let g := getDailyUsage today st
  if g.1.count ≥ limit then (Except.error (JSError.api (dailyQuotaError limit)), g.2)
  else (Except.ok (), g.2)

/-- `createOptimizedPrompt`: prepend a fixed instruction to the first 100
characters of the user prompt. -/
def createOptimizedPrompt (userPrompt : String) : String :=
  "Transform this room with: " ++ jsSubstringTo userPrompt 100 ++ ". Keep layout, change style only."

/-- The cache key derived by the quota-aware `redesignRoom`:
`createCacheKey('room-redesign', imageHash, btoa(optimizedPrompt).substring(0, 20))`,
where `imageHash` is the (abstracted) SHA-256-based fingerprint of the first
1000 base64 characters of the image. -/
def cacheKeyP3 (hashFn : String → String) (base64ImageData userPrompt : String) : String :=
  createCacheKey "room-redesign"
    [hashFn (jsSubstringTo base64ImageData 1000),
     jsSubstringTo (btoa (createOptimizedPrompt userPrompt)) 20]

/-- `generateImageHash` of the Firebase-backed service
(`src/services/geminiServices.tsx`): the first 100 characters of the base64
data. -/
def generateImageHashGS (base64Data : String) : String :=
  jsSubstringTo base64Data 100

/-- The cache key derived by the Firebase-backed `redesignRoom`
(`src/services/geminiServices.tsx`):
`createCacheKey('room-redesign', imageHash, btoa(prompt).substring(0, 20))`. -/
def cacheKeyGS (base64ImageData userPrompt : String) : String :=
  createCacheKey "room-redesign"
    [generateImageHashGS base64ImageData, jsSubstringTo (btoa userPrompt) 20]

/-- The tail of `redesignRoom` after the quota and cache steps: consult the
rate limiter, run the network operation under `withRetry` with the
configured `maxRetries`, and on success increment the daily counter and
(when caching is on and the TTL is truthy) store the result. The `Nat`
component counts invocations of the network operation. -/
def redesignRest (config : RedesignConfig) (cacheKey today : String) (now : Nat)
    (op : Nat → Except JSError String) (st : OrchestState) :
    Except JSError String × OrchestState × Nat :=
  match checkRateLimit st.requests now with
  | (Except.error e, reqs) => (Except.error e, { st with requests := reqs }, 0)
  | (Except.ok _, reqs) =>
    let st2 := { st with requests := reqs }
    match withRetryRun op (mergeRetryOptions { maxAttempts := some config.maxRetries }) with
    | (Except.error e, n, _) => (Except.error e, st2, n)
    | (Except.ok result, n, _) =>
      let st3 := incrementDailyUsage today st2
      let st4 :=
        if config.useCache ∧ config.cacheTimeMs ≠ 0 then
          { st3 with cacheMap := cacheSet st3.cacheMap cacheKey result config.cacheTimeMs now }
        else st3
      (Except.ok result, st4, n)

/-- The quota-aware `redesignRoom` orchestration service: merge options,
check the daily quota first, derive the cache key, consult the cache (a
cached empty string is falsy and treated as a miss, and an expired entry is
purged by the lookup), and otherwise fall through to the rate-limited,
retried network call. -/
def redesignRoom (limit : Nat) (hashFn : String → String) (today : String) (now : Nat)
    (op : Nat → Except JSError String)
    (base64ImageData _mimeType prompt : String)
    (options : RedesignOverrides) (st : OrchestState) :
    Except JSError String × OrchestState × Nat :=
  let config := mergeRedesignOptions options
  match checkDailyQuota limit today st with
  | (Except.error e, st1) => (Except.error e, st1, 0)
  | (Except.ok _, st1) =>
    let cacheKey := cacheKeyP3 hashFn base64ImageData prompt
    if config.useCache then
      match cacheGet st1.cacheMap cacheKey now with
      | (some v, cm) =>
        if v = "" then redesignRest config cacheKey today now op { st1 with cacheMap := cm }
        else (Except.ok v, { st1 with cacheMap := cm }, 0)
      | (none, cm) => redesignRest config cacheKey today now op { st1 with cacheMap := cm }
    else redesignRest config cacheKey today now op st1

/-- A concrete stand-in for the abstract image fingerprint function used in
scenario evaluations. -/
def c1Hash : String → String :=
  fun s => jsSubstringTo s 8

/-- The cache key the quota-aware service derives for the concrete
counterexample input of claim C1. -/
def c1Key : String :=
  cacheKeyP3 c1Hash "QUJDRA" "make it modern"

/-- Counterexample state for claim C1: today's counter already at the daily
limit, and the cache seeded with a fresh entry under the derived key. -/
def c1St : OrchestState :=
  { usage := some ⟨"2026-10-11", 5⟩,
    cacheMap := [(c1Key, { data := "artifact-A", timestamp := 50, ttl := 86400000 })],
    requests := [] }

/-- Witness state for the amended claim C1: quota headroom available and the
cache seeded with a fresh entry under the derived key. -/
def c1wSt : OrchestState :=
  { usage := some ⟨"2026-01-01", 0⟩,
    cacheMap := [(cacheKeyP3 c1Hash "IMGDATA" "cozy", { data := "artifact-A", timestamp := 10, ttl := 1000 })],
    requests := [7] }

/-- Network operation for the quota-exhaustion scenario: always succeeds. -/
def scenOp : Nat → Except JSError String :=
  fun _ => Except.ok "artifact-1"

/-- Fresh state (empty storage, cache and limiter) for the quota-exhaustion
scenario. -/
def scenSt0 : OrchestState :=
  { usage := none, cacheMap := [], requests := [] }

/-- The state after one successful request under a daily limit of 1. -/
def scenSt1 : OrchestState :=
  (redesignRoom 1 c1Hash "2026-10-11" 100 scenOp "AAAA" "image/png" "modern style" {} scenSt0).2.1

/-- Witness state for claim C8: counter already at the limit of 5. -/
def quotaWitnessSt : OrchestState :=
  { usage := some ⟨"2026-10-11", 5⟩, cacheMap := [], requests := [4] }

/-- The classified error returned by every attempt of the failing network
operation in the claim C9 witness. -/
def c9Err : JSError :=
  JSError.api { message := "server exploded", status := some 500,
                code := some "OPENROUTER_API_ERROR", retryable := true }

/-- Always-failing network operation for the claim C9 witness. -/
def c9Op : Nat → Except JSError String :=
  fun _ => Except.error c9Err

/-- Fresh same-day state for the claim C9 witness. -/
def c9St : OrchestState :=
  { usage := some ⟨"2026-02-02", 0⟩, cacheMap := [], requests := [] }



/-! ### Helper lemmas -/

/-- Looking up a key right after setting it yields the new entry. -/
theorem mapGet_mapSet_self {α : Type} (c : CacheMap α) (k : String) (e : CacheEntry α) :
    mapGet (mapSet c k e) k = some e := by
  induction c with
  | nil => simp [mapSet, mapGet]
  | cons p rest ih =>
    obtain ⟨k', e'⟩ := p
    by_cases h : k' = k
    · simp [mapSet, mapGet, h]
    · simp [mapSet, mapGet, h, ih]

/-- Looking up a key right after deleting it fails. -/
theorem mapGet_mapDelete_self {α : Type} (c : CacheMap α) (k : String) :
    mapGet (mapDelete c k) k = none := by
  induction c with
  | nil => simp [mapDelete, mapGet]
  | cons p rest ih =>
    obtain ⟨k', e'⟩ := p
    simp only [mapDelete] at ih ⊢
    by_cases h : k' = k
    · subst h
      simpa [List.filter] using ih
    · have hb : (k' != k) = true := bne_iff_ne.mpr h
      simp [List.filter, hb, mapGet, h, ih]

/-- A successful `cacheGet` leaves the map unchanged. -/
theorem cacheGet_fst_some {α : Type} (c : CacheMap α) (k : String) (now : Nat) (v : α)
    (h : (cacheGet c k now).1 = some v) : cacheGet c k now = (some v, c) := by
  unfold cacheGet at h ⊢
  cases hm : mapGet c k with
  | none => rw [hm] at h; simp at h
  | some e =>
    rw [hm] at h
    by_cases hexp : now - e.timestamp > e.ttl
    · simp [hexp] at h
    · simp [hexp] at h ⊢
      exact h

/-- After a missing `cacheGet`, the returned map holds no entry for the key. -/
theorem cacheGet_fst_none_mapGet {α : Type} (c : CacheMap α) (k : String) (now : Nat)
    (h : (cacheGet c k now).1 = none) : mapGet (cacheGet c k now).2 k = none := by
  unfold cacheGet at h ⊢
  cases hm : mapGet c k with
  | none => simpa using hm
  | some e =>
    rw [hm] at h
    by_cases hexp : now - e.timestamp > e.ttl
    · simpa [hexp] using mapGet_mapDelete_self c k
    · simp [hexp] at h

/-- Filtering out a present element strictly shrinks a list. -/
theorem filter_length_lt_of_mem (l : List Nat) (p : Nat → Bool) (a : Nat)
    (ha : a ∈ l) (hp : p a = false) : (l.filter p).length < l.length := by
  induction l with
  | nil => cases ha
  | cons b t ih =>
    rcases List.mem_cons.mp ha with rfl | hmem
    · simp [List.filter, hp]
      exact Nat.lt_succ_of_le (List.length_filter_le p t)
    · by_cases hb : p b
      · simp [List.filter, hb]
        exact ih hmem
      · simp [List.filter, hb]
        exact Nat.lt_succ_of_lt (ih hmem)

/-- The prompt fingerprint embedded in the quota-aware service's cache key
is the same constant for every prompt: the 20 retained base64 characters
encode only the first 15 bytes of the fixed prefix
`"Transform this room with: "`. -/
theorem promptFingerprint_const (p : String) :
    jsSubstringTo (btoa (createOptimizedPrompt p)) 20 = "VHJhbnNmb3JtIHRoaXMg" := rfl

/-- On an operation that always throws a retryable error, the attempt loop
runs its full fuel and ends with the last attempt's error. -/
theorem withRetryGo_exhaust {α : Type} (config : RetryOptions) (err : Nat → JSError)
    (hr : ∀ a, isRetryableError (err a) = true) :
    ∀ fuel attempt, 1 ≤ fuel → attempt + fuel = config.maxAttempts + 1 →
      (withRetryGo (fun a => (Except.error (err a) : Except JSError α)) config attempt fuel).1
          = Except.error (err config.maxAttempts)
      ∧ (withRetryGo (fun a => (Except.error (err a) : Except JSError α)) config attempt fuel).2.1
          = fuel := by
  intro fuel
  induction fuel with
  | zero => intro attempt h0 _; exact absurd h0 (by omega)
  | succ f ih =>
    intro attempt _ hsum
    by_cases hlast : attempt = config.maxAttempts
    · have hf : f = 0 := by omega
      subst hf
      simp [withRetryGo, hlast]
    · have hcond : ¬(isRetryableError (err attempt) = false ∨ attempt = config.maxAttempts) := by
        simp [hr attempt, hlast]
      have hf1 : 1 ≤ f := by omega
      have h := ih (attempt + 1) hf1 (by omega)
      simp only [withRetryGo, if_neg hcond]
      exact ⟨h.1, by simp [h.2]⟩

/-! ### Claim theorems -/

/-- Claim C3: for every `maxAttempts = M >= 1` and every operation that
always throws a retryable error, `withRetry(operation, {maxAttempts: M})`
invokes the operation exactly `M` times and then rethrows the error of the
last (`M`-th) attempt; no result is returned. -/
theorem withRetry_retryable_exhausts (α : Type) (M : Nat) (hM : 1 ≤ M)
    (err : Nat → JSError) (hr : ∀ a, isRetryableError (err a) = true) :
    (withRetry (fun a => (Except.error (err a) : Except JSError α))
        { maxAttempts := some M }).1 = Except.error (err M)
    ∧ (withRetry (fun a => (Except.error (err a) : Except JSError α))
        { maxAttempts := some M }).2.1 = M := by
  have h := withRetryGo_exhaust (α := α)
    (mergeRetryOptions { maxAttempts := some M }) err hr M 1 hM (by simp [mergeRetryOptions]; omega)
  have hmax : (mergeRetryOptions { maxAttempts := some M }).maxAttempts = M := rfl
  unfold withRetry withRetryRun
  rw [hmax] at h ⊢
  exact ⟨h.1, h.2⟩

/-- Witness for C3 at `M = 2` with a plain network error. -/
theorem withRetry_retryable_exhausts_witness :
    (withRetry (fun _ => (Except.error (JSError.generic "network timeout") : Except JSError String))
        { maxAttempts := some 2 }).1 = Except.error (JSError.generic "network timeout")
    ∧ (withRetry (fun _ => (Except.error (JSError.generic "network timeout") : Except JSError String))
        { maxAttempts := some 2 }).2.1 = 2 :=
  withRetry_retryable_exhausts String 2 (by decide)
    (fun _ => JSError.generic "network timeout") (fun _ => rfl)

/-- Claim C4: an operation throwing a non-retryable error is invoked exactly
once and its error is rethrown with no delay, regardless of `maxAttempts`;
retryability is the `retryable` flag for a classified `APIError` and the
"network"/"fetch" message heuristic for other errors. -/
theorem withRetry_nonretryable_once (α : Type) (M : Nat) (hM : 1 ≤ M) (e : JSError)
    (he : isRetryableError e = false) :
    withRetry (fun _ => (Except.error e : Except JSError α)) { maxAttempts := some M }
        = (Except.error e, 1, [])
    ∧ (∀ ae : APIError, isRetryableError (JSError.api ae) = ae.retryable)
    ∧ ∀ m : String, isRetryableError (JSError.generic m)
        = (strIncludes m "network" || strIncludes m "fetch") := by
  refine ⟨?_, fun ae => rfl, fun m => rfl⟩
  obtain ⟨f, rfl⟩ : ∃ f, M = f + 1 := ⟨M - 1, by omega⟩
  have hmax : (mergeRetryOptions { maxAttempts := some (f + 1) }).maxAttempts = f + 1 := rfl
  unfold withRetry withRetryRun
  rw [hmax]
  simp [withRetryGo, he]

/-- Witness for C4 at `M = 5` with a non-retryable classified error. -/
theorem withRetry_nonretryable_once_witness :
    withRetry (fun _ => (Except.error (JSError.api
        { message := "bad request", status := some 400, code := some "INVALID_INPUT", retryable := false })
        : Except JSError String)) { maxAttempts := some 5 }
      = (Except.error (JSError.api
        { message := "bad request", status := some 400, code := some "INVALID_INPUT", retryable := false }), 1, [])
    ∧ (∀ ae : APIError, isRetryableError (JSError.api ae) = ae.retryable)
    ∧ ∀ m : String, isRetryableError (JSError.generic m)
        = (strIncludes m "network" || strIncludes m "fetch") :=
  withRetry_nonretryable_once String 5 (by decide)
    (JSError.api { message := "bad request", status := some 400, code := some "INVALID_INPUT", retryable := false })
    (by decide)

/-- Claim C5: the backoff delay computed after attempt `a` (i.e. waited
before attempt `a + 1`) is `min(baseDelay * backoffFactor ^ (a - 1), maxDelay)`;
with the defaults (1000, 2, 10000) the delays waited before attempts
2, 3, 4, 5 are 1000, 2000, 4000, 8000, and the delay is clamped to 10000
before attempt 6 and every later attempt, as the recorded delay trace of a
6-attempt run confirms. -/
theorem calculateDelay_spec (a : Nat) (opts : RetryOptions) (_ha : 1 ≤ a) :
    calculateDelay a opts
        = min (opts.baseDelay * opts.backoffFactor ^ (a - 1)) opts.maxDelay
    ∧ calculateDelay 1 defaultRetryOptions = 1000
    ∧ calculateDelay 2 defaultRetryOptions = 2000
    ∧ calculateDelay 3 defaultRetryOptions = 4000
    ∧ calculateDelay 4 defaultRetryOptions = 8000
    ∧ (5 ≤ a → calculateDelay a defaultRetryOptions = 10000)
    ∧ (withRetry (fun _ => (Except.error (JSError.generic "network fail") : Except JSError String))
        { maxAttempts := some 6 }).2.2 = [1000, 2000, 4000, 8000, 10000] := by
  refine ⟨rfl, by decide, by decide, by decide, by decide, ?_, by decide⟩
  intro h5
  have h1 : (16 : Nat) ≤ 2 ^ (a - 1) := by
    calc (16 : Nat) = 2 ^ 4 := by norm_num
    _ ≤ 2 ^ (a - 1) := Nat.pow_le_pow_right (by norm_num) (by omega)
  have h2 : (10000 : Nat) ≤ 1000 * 2 ^ (a - 1) := by
    calc (10000 : Nat) ≤ 1000 * 16 := by norm_num
    _ ≤ 1000 * 2 ^ (a - 1) := Nat.mul_le_mul_left 1000 h1
  simp [calculateDelay, defaultRetryOptions, Nat.min_eq_right h2]

/-- Witness for C5 at attempt 6 with the default configuration. -/
theorem calculateDelay_spec_witness :
    calculateDelay 6 defaultRetryOptions
        = min (defaultRetryOptions.baseDelay * defaultRetryOptions.backoffFactor ^ (6 - 1))
            defaultRetryOptions.maxDelay
    ∧ calculateDelay 6 defaultRetryOptions = 10000 :=
  ⟨(calculateDelay_spec 6 defaultRetryOptions (by decide)).1,
   (calculateDelay_spec 6 defaultRetryOptions (by decide)).2.2.2.2.2.1 (by decide)⟩

/-- Claim C10: when the merged configuration's `maxAttempts` is below 1, the
loop body never runs, the operation is never invoked, and the call throws
the uninitialized `lastError` (`undefined`), which is not a classified
`APIError`. -/
theorem withRetry_zero_attempts (α : Type) (op : Nat → Except JSError α)
    (options : RetryOverrides) (h : (mergeRetryOptions options).maxAttempts = 0) :
    withRetry op options = (Except.error JSError.undef, 0, [])
    ∧ ∀ ae : APIError, JSError.undef ≠ JSError.api ae := by
  refine ⟨?_, fun ae h' => by cases h'⟩
  unfold withRetry withRetryRun
  rw [h]
  rfl

/-- Witness for C10: `maxAttempts = 0` with an operation that would succeed. -/
theorem withRetry_zero_attempts_witness :
    withRetry (fun _ => (Except.ok 42 : Except JSError Nat)) { maxAttempts := some 0 }
        = (Except.error JSError.undef, 0, [])
    ∧ ∀ ae : APIError, JSError.undef ≠ JSError.api ae :=
  withRetry_zero_attempts Nat (fun _ => Except.ok 42) { maxAttempts := some 0 } rfl

/-- Claim C6: `set(k, v, ttl)` followed by `get(k)` with no time advance
returns `v`; once `now' - storedAt > ttl`, `get(k)` returns `null` and
removes the expired entry from the map as a side effect. (`cacheGet` is a
total function: `get` never throws.) -/
theorem cache_ttl_roundtrip (α : Type) (c : CacheMap α) (k : String) (v : α)
    (ttl now : Nat) (_httl : 0 < ttl) :
    (cacheGet (cacheSet c k v ttl now) k now).1 = some v
    ∧ ∀ now', ttl < now' - now →
        (cacheGet (cacheSet c k v ttl now) k now').1 = none
        ∧ mapGet (cacheGet (cacheSet c k v ttl now) k now').2 k = none := by
  constructor
  · unfold cacheGet cacheSet
    rw [mapGet_mapSet_self]
    simp
  · intro now' h
    unfold cacheGet cacheSet
    rw [mapGet_mapSet_self]
    simp only [gt_iff_lt]
    rw [if_pos h]
    exact ⟨rfl, mapGet_mapDelete_self _ _⟩

/-- Witness for C6: `ttl = 5`, stored at `now = 100`, fresh read at 100,
expired read at 106. -/
theorem cache_ttl_roundtrip_witness :
    (cacheGet (cacheSet ([] : CacheMap Nat) "k" 7 5 100) "k" 100).1 = some 7
    ∧ (cacheGet (cacheSet ([] : CacheMap Nat) "k" 7 5 100) "k" 106).1 = none
    ∧ mapGet (cacheGet (cacheSet ([] : CacheMap Nat) "k" 7 5 100) "k" 106).2 "k" = none :=
  ⟨(cache_ttl_roundtrip Nat [] "k" 7 5 100 (by decide)).1,
   ((cache_ttl_roundtrip Nat [] "k" 7 5 100 (by decide)).2 106 (by decide)).1,
   ((cache_ttl_roundtrip Nat [] "k" 7 5 100 (by decide)).2 106 (by decide)).2⟩

/-- Claim C7: with `maxRequests = N` and `windowDuration = W`, after `N`
requests recorded within a span shorter than `W` (all of them between the
earliest timestamp `t1` and `now` with `now - t1 < W`), `canMakeRequest`
returns false; at time `t1 + W` it returns true again; and after any
`canMakeRequest` call whose input timestamps are not in the future, every
retained timestamp `t` satisfies `m - W ≤ t ≤ m`. -/
theorem rateLimiter_window (N W : Nat) (ts : List Nat) (t1 now : Nat)
    (hlen : ts.length = N) (hmem : t1 ∈ ts) (hmin : ∀ t ∈ ts, t1 ≤ t)
    (_hub : ∀ t ∈ ts, t ≤ now) (hspan : now - t1 < W) :
    (canMakeRequest N W ts now).1 = false
    ∧ (canMakeRequest N W ts (t1 + W)).1 = true
    ∧ ∀ (s : List Nat) (m : Nat), (∀ t ∈ s, t ≤ m) →
        ∀ t ∈ (canMakeRequest N W s m).2, m - W ≤ t ∧ t ≤ m := by
  refine ⟨?_, ?_, ?_⟩
  · have hfull : ts.filter (fun time => decide (now - time < W)) = ts := by
      apply List.filter_eq_self.mpr
      intro a ha
      simp only [decide_eq_true_eq]
      exact lt_of_le_of_lt (Nat.sub_le_sub_left (hmin a ha) now) hspan
    simp [canMakeRequest, hfull, hlen]
  · have hp : decide (t1 + W - t1 < W) = false := by
      simp [Nat.add_sub_cancel_left]
    have hlt := filter_length_lt_of_mem ts (fun time => decide (t1 + W - time < W)) t1 hmem hp
    rw [hlen] at hlt
    simp [canMakeRequest]
    exact hlt
  · intro s m hub' t ht
    simp only [canMakeRequest] at ht
    obtain ⟨hts, hcond⟩ := List.mem_filter.mp ht
    have h1 : m - t < W := of_decide_eq_true hcond
    have h2 : t ≤ m := hub' t hts
    exact ⟨by omega, h2⟩

/-- Witness for C7: `N = 2`, `W = 10`, requests at 5 and 6, queried at 6
and at `5 + 10 = 15`. -/
theorem rateLimiter_window_witness :
    (canMakeRequest 2 10 [5, 6] 6).1 = false
    ∧ (canMakeRequest 2 10 [5, 6] (5 + 10)).1 = true :=
  ⟨(rateLimiter_window 2 10 [5, 6] 5 6 (by decide) (by decide) (by decide) (by decide) (by decide)).1,
   (rateLimiter_window 2 10 [5, 6] 5 6 (by decide) (by decide) (by decide) (by decide) (by decide)).2.1⟩

/-- Claim C2 (code bug): in the quota-aware service the derived cache key
does not depend on the prompt at all — the retained 20 base64 characters
encode only the constant prefix of the optimized prompt — and in the
Firebase-backed service two prompts sharing their first 15 characters
collide, contradicting "differing prompts produce different keys with
overwhelming probability". (Determinism holds trivially: the key is a pure
function of the inputs.) -/
theorem cacheKey_prompt_independent :
    (∀ (hashFn : String → String) (img p q : String),
        cacheKeyP3 hashFn img p = cacheKeyP3 hashFn img q)
    ∧ cacheKeyGS "ROOMDATA" "minimalist scandinavian style"
        = cacheKeyGS "ROOMDATA" "minimalist scandi with plants"
    ∧ "minimalist scandinavian style" ≠ "minimalist scandi with plants" := by
  refine ⟨fun hashFn img p q => ?_, by decide, by decide⟩
  unfold cacheKeyP3
  rw [promptFingerprint_const p, promptFingerprint_const q]

/-- Claim C1 counterexample: with today's counter at the daily limit and the
cache holding a fresh entry under the exact derived key, `redesignRoom`
throws `DAILY_QUOTA_EXCEEDED` instead of returning the cached artifact —
the quota check precedes the cache lookup, so a cache hit does not bypass
it. -/
theorem redesign_cache_hit_cex :
    (cacheGet c1St.cacheMap c1Key 60).1 = some "artifact-A"
    ∧ (redesignRoom DAILY_REQUEST_LIMIT c1Hash "2026-10-11" 60 (fun _ => Except.ok "fresh")
        "QUJDRA" "image/png" "make it modern" {} c1St).1
      = Except.error (JSError.api (dailyQuotaError DAILY_REQUEST_LIMIT))
    ∧ Except.error (JSError.api (dailyQuotaError DAILY_REQUEST_LIMIT))
        ≠ (Except.ok "artifact-A" : Except JSError String) := by
  refine ⟨by decide, by decide, by decide⟩

/-- Claim C1 (amended): provided the daily-quota check passes (today's
stored counter is below the limit), a `redesignRoom` call with caching
enabled whose derived key holds a fresh, non-empty cached entry returns
exactly that cached artifact with zero network-operation invocations and a
completely unchanged state — in particular the rate limiter's recorded
requests and the usage counter are untouched. (The quota check precedes,
rather than follows, the cache lookup.) -/
theorem redesign_cache_hit (limit : Nat) (hashFn : String → String) (today : String)
    (now : Nat) (op : Nat → Except JSError String) (img mime prompt : String)
    (opts : RedesignOverrides) (st : OrchestState) (u : DailyUsage) (v : String)
    (hu : st.usage = some u) (hd : u.date = today) (hq : u.count < limit)
    (huc : (mergeRedesignOptions opts).useCache = true)
    (hget : (cacheGet st.cacheMap (cacheKeyP3 hashFn img prompt) now).1 = some v)
    (hv : v ≠ "") :
    redesignRoom limit hashFn today now op img mime prompt opts st = (Except.ok v, st, 0) := by
  have hquota : checkDailyQuota limit today st = (Except.ok (), st) := by
    unfold checkDailyQuota getDailyUsage
    rw [hu]
    simp [hd, Nat.not_le.mpr hq]
  have hcg := cacheGet_fst_some _ _ _ _ hget
  unfold redesignRoom
  rw [hquota]
  simp [huc, hcg, hv]

/-- Witness for the amended C1: quota headroom, seeded fresh cache entry,
rate limiter holding one prior timestamp; the call returns the cached
artifact with state untouched and zero operation invocations. -/
theorem redesign_cache_hit_witness :
    redesignRoom 5 c1Hash "2026-01-01" 20 (fun _ => Except.ok "ignored")
        "IMGDATA" "image/png" "cozy" {} c1wSt
      = (Except.ok "artifact-A", c1wSt, 0) :=
  redesign_cache_hit 5 c1Hash "2026-01-01" 20 (fun _ => Except.ok "ignored")
    "IMGDATA" "image/png" "cozy" {} c1wSt ⟨"2026-01-01", 0⟩ "artifact-A"
    rfl rfl (by decide) rfl (by decide) (by decide)

/-- Claim C8: when today's stored counter has reached the daily limit,
`redesignRoom` fails immediately with the non-retryable
`DAILY_QUOTA_EXCEEDED` classified error, performing zero network-operation
invocations and leaving the state — including the rate limiter's recorded
requests — unchanged; and, as the concrete scenario shows, under a daily
limit of 1 a second request after one successful request fails this way. -/
theorem redesign_quota_exhaustion (limit : Nat) (hashFn : String → String)
    (today : String) (now : Nat) (op : Nat → Except JSError String)
    (img mime prompt : String) (opts : RedesignOverrides) (st : OrchestState)
    (u : DailyUsage) (hu : st.usage = some u) (hd : u.date = today)
    (hq : limit ≤ u.count) :
    redesignRoom limit hashFn today now op img mime prompt opts st
        = (Except.error (JSError.api (dailyQuotaError limit)), st, 0)
    ∧ (dailyQuotaError limit).code = some "DAILY_QUOTA_EXCEEDED"
    ∧ (dailyQuotaError limit).retryable = false
    ∧ (redesignRoom 1 c1Hash "2026-10-11" 100 scenOp "AAAA" "image/png"
        "modern style" {} scenSt0).1 = Except.ok "artifact-1"
    ∧ scenSt1.usage = some ⟨"2026-10-11", 1⟩
    ∧ (redesignRoom 1 c1Hash "2026-10-11" 200 scenOp "BBBB" "image/png"
        "rustic style" {} scenSt1).1
        = Except.error (JSError.api (dailyQuotaError 1)) := by
  refine ⟨?_, rfl, rfl, by decide, by decide, by decide⟩
  have hquota : checkDailyQuota limit today st
      = (Except.error (JSError.api (dailyQuotaError limit)), st) := by
    unfold checkDailyQuota getDailyUsage
    rw [hu]
    simp [hd, hq]
  unfold redesignRoom
  rw [hquota]

/-- Witness for C8: counter already at the limit of 5; the call fails with
the quota error, zero invocations, state unchanged. -/
theorem redesign_quota_exhaustion_witness :
    redesignRoom 5 c1Hash "2026-10-11" 300 scenOp "CCCC" "image/png"
        "any prompt" {} quotaWitnessSt
      = (Except.error (JSError.api (dailyQuotaError 5)), quotaWitnessSt, 0) :=
  (redesign_quota_exhaustion 5 c1Hash "2026-10-11" 300 scenOp "CCCC" "image/png"
    "any prompt" {} quotaWitnessSt ⟨"2026-10-11", 5⟩ rfl rfl (by decide)).1

/-- Claim C9: when the quota passes, the cache misses, the rate limiter
admits, and the retried network operation ultimately fails, `redesignRoom`
propagates the final classified error unchanged, the resulting cache holds
no entry for the derived key, and the daily usage counter is not
incremented (the only state changes are the cache's lazy purge of an
expired entry and the rate limiter's recorded request). -/
theorem redesign_failure_no_persist (limit : Nat) (hashFn : String → String)
    (today : String) (now : Nat) (op : Nat → Except JSError String)
    (img mime prompt : String) (opts : RedesignOverrides) (st : OrchestState)
    (u : DailyUsage) (e : JSError) (n : Nat) (ds : List Nat)
    (hu : st.usage = some u) (hd : u.date = today) (hq : u.count < limit)
    (huc : (mergeRedesignOptions opts).useCache = true)
    (hmiss : (cacheGet st.cacheMap (cacheKeyP3 hashFn img prompt) now).1 = none)
    (hcan : (canMakeRequest rateLimiterMax rateLimiterWindow st.requests now).1 = true)
    (hfail : withRetryRun op (mergeRetryOptions
        { maxAttempts := some (mergeRedesignOptions opts).maxRetries })
      = (Except.error e, n, ds)) :
    redesignRoom limit hashFn today now op img mime prompt opts st
      = (Except.error e,
         { st with
            cacheMap := (cacheGet st.cacheMap (cacheKeyP3 hashFn img prompt) now).2,
            requests := recordRequest
              (canMakeRequest rateLimiterMax rateLimiterWindow st.requests now).2 now },
         n)
    ∧ mapGet (cacheGet st.cacheMap (cacheKeyP3 hashFn img prompt) now).2
        (cacheKeyP3 hashFn img prompt) = none
    ∧ ({ st with
          cacheMap := (cacheGet st.cacheMap (cacheKeyP3 hashFn img prompt) now).2,
          requests := recordRequest
            (canMakeRequest rateLimiterMax rateLimiterWindow st.requests now).2 now }
        : OrchestState).usage = st.usage := by
  refine ⟨?_, cacheGet_fst_none_mapGet _ _ _ hmiss, rfl⟩
  have hquota : checkDailyQuota limit today st = (Except.ok (), st) := by
    unfold checkDailyQuota getDailyUsage
    rw [hu]
    simp [hd, Nat.not_le.mpr hq]
  have hpair : cacheGet st.cacheMap (cacheKeyP3 hashFn img prompt) now
      = (none, (cacheGet st.cacheMap (cacheKeyP3 hashFn img prompt) now).2) := by
    rw [← hmiss]
  have hrl : checkRateLimit st.requests now
      = (Except.ok (), recordRequest
          (canMakeRequest rateLimiterMax rateLimiterWindow st.requests now).2 now) := by
    unfold checkRateLimit
    simp [hcan]
  unfold redesignRoom
  rw [hquota]
  simp only [huc, if_true]
  rw [hpair]
  unfold redesignRest
  simp only []
  rw [hrl]
  simp only []
  rw [hfail]

/-- Witness for C9: fresh same-day state, always-failing operation with the
default single attempt; the error is propagated, the cache stays empty, and
the usage counter stays at zero while the limiter records the request. -/
theorem redesign_failure_no_persist_witness :
    redesignRoom 5 c1Hash "2026-02-02" 30 c9Op "IMGX" "image/png" "warm tones" {} c9St
      = (Except.error c9Err,
         { usage := some ⟨"2026-02-02", 0⟩, cacheMap := [], requests := [30] }, 1) := by
  have h := (redesign_failure_no_persist 5 c1Hash "2026-02-02" 30 c9Op "IMGX" "image/png"
    "warm tones" {} c9St ⟨"2026-02-02", 0⟩ c9Err 1 []
    rfl rfl (by decide) rfl (by decide) (by decide) (by decide)).1
  rw [h]
  rfl
